import Mathlib

/-!
# Verification of the HIT137 Tkinter AI GUI core

A shallow embedding of the model-adapter / task-runner / result-inbox core
of the repository (`models.py`, `gui.py`, `oop_concepts.py`, `utils.py`).

External ML libraries (diffusers, transformers, torch) are opaque services;
they are modelled as environments of fallible calls (`Except String _`),
so that a call that raises a Python exception is an `Except.error` carrying
the exception message.  Adapter objects are explicit states threaded through
the operations; background tasks become functions from states to states plus
the list of outcomes they push to the result queue.
-/

namespace HIT137

/-- A classification entry as produced by the image-classification pipeline:
a dict with a label and a score. -/
structure LabelScore where
  label : String
  score : Rat
  deriving DecidableEq, Repr

/-- The dict returned by a model's `run`: either
`\x7b"type": "image", "path": path, "pil_image": image\x7d` (text-to-image,
`models.py` line 94) or `\x7b"type": "classifications", "results": results\x7d`
(image classification, `models.py` line 121).  PIL images are opaque handles,
modelled as `Nat`. -/
inductive RunRes where
  | image (path : String) (pil_image : Nat)
  | classifications (results : List LabelScore)
  deriving DecidableEq, Repr

/-- The fields of `BaseModel` (`models.py` lines 31-36): the protected
attributes `_name`, `_category`, `_description`, the lazily set `_pipeline`
handle and the `_is_loaded` flag.  The pipeline handle type `π` is opaque. -/
structure ModelState (π : Type) where
  name : String
  category : String
  description : String
  pipeline : Option π
  is_loaded : Bool
  deriving DecidableEq, Repr

/-- Embedding of `BaseModel.__init__` via `TextToImageModel.__init__` (`models.py`
lines 66-67): constructed unloaded with a `None` pipeline. -/
def t2i_init (π : Type) (model_name : String) : ModelState π :=
  ⟨model_name, "Text-to-Image", "Stable Diffusion text->image generator.",
   none, false⟩

/-- Embedding of `BaseModel.__init__` via `ImageClassificationModel.__init__`
(`models.py` lines 102-103). -/
def cls_init (π : Type) (model_name : String) : ModelState π :=
  ⟨model_name, "Image Classification", "Classify images using ViT.",
   none, false⟩

/-- The external world seen by `TextToImageModel`: availability of
`StableDiffusionPipeline`, the fallible `from_pretrained` and `.to(device)`
calls, the fallible pipeline invocation (returning the first generated image,
an opaque handle), and `save_pil_image` which persists an image and returns
its absolute path (`utils.py` lines 16-19). -/
structure T2IEnv (π : Type) where
  sdAvailable : Bool
  fromPretrained : String → String → Except String π
  toDevice : π → String → Except String π
  invoke : π → String → Except String Nat
  savePath : Nat → String

/-- The external world seen by `ImageClassificationModel`: the fallible
`transformers.pipeline("image-classification", model=..., device=-1)` call
and the fallible classifier invocation on an image path. -/
structure ClsEnv (π : Type) where
  hfPipeline : String → Int → Except String π
  invoke : π → String → Except String (List LabelScore)

/-- Embedding of `models.py` line 75: `torch.float16 if device in ("cuda", "mps") else
torch.float32`, with dtypes named by strings. -/
def dtypeFor (device : String) : String :=
  if device = "cuda" ∨ device = "mps" then "float16" else "float32"

/-- Embedding of `TextToImageModel.load` (`models.py` lines 69-80).  Returns the adapter
state after the call together with `some msg` when the call raised.  Note the
source assigns `self._pipeline = ...from_pretrained(...)` on line 77 before
the `.to(device)` move on line 79: when the move raises, the state keeps the
freshly assigned pipeline while `_is_loaded` is still `false`. -/
def t2i_load (π : Type) (env : T2IEnv π) (device : String)
    (s : ModelState π) : ModelState π × Option String :=
  if s.is_loaded then (s, none)
  else if env.sdAvailable = false then
    (s, some "diffusers not installed or unavailable. Run: pip install diffusers accelerate safetensors")
  else
    match env.fromPretrained s.name (dtypeFor device) with
    | .error e => (s, some e)
    | .ok p =>
      match env.toDevice p device with
      | .error e => (⟨s.name, s.category, s.description, some p, s.is_loaded⟩, some e)
      | .ok p2 => (⟨s.name, s.category, s.description, some p2, true⟩, none)

/-- Embedding of `TextToImageModel.run` (`models.py` lines 82-94): auto-loads with the
default device `"cpu"` when not loaded, then invokes the pipeline on the
prompt, saves the first image to `generated_image.png` and returns the
result dict.  A `None` pipeline call would raise a `TypeError`. -/
def t2i_run (π : Type) (env : T2IEnv π) (prompt : String)
    (s : ModelState π) : ModelState π × Except String RunRes :=
  let ls : ModelState π × Option String :=
    if s.is_loaded then (s, none) else t2i_load π env "cpu" s
  match ls with
  | (s1, some e) => (s1, .error e)
  | (s1, none) =>
    match s1.pipeline with
    | none => (s1, .error "TypeError: NoneType object is not callable")
    | some p =>
      match env.invoke p prompt with
      | .error e => (s1, .error e)
      | .ok img => (s1, .ok (.image (env.savePath img) img))

/-- Embedding of `ImageClassificationModel.load` (`models.py` lines 105-111): a single
fallible `transformers.pipeline` call with hard-coded `device=-1`; the
`device` argument of `load` is ignored.  Pipeline assignment and flag set
cannot be separated by a failure here. -/
def cls_load (π : Type) (env : ClsEnv π) (_device : String)
    (s : ModelState π) : ModelState π × Option String :=
  if s.is_loaded then (s, none)
  else
    match env.hfPipeline s.name (-1) with
    | .error e => (s, some e)
    | .ok p => (⟨s.name, s.category, s.description, some p, true⟩, none)

/-- Embedding of `ImageClassificationModel.run` (`models.py` lines 113-121): auto-loads
with the default `device="cpu"` argument when not loaded, then invokes the
classifier on the image (path). -/
def cls_run (π : Type) (env : ClsEnv π) (image : String)
    (s : ModelState π) : ModelState π × Except String RunRes :=
  let ls : ModelState π × Option String :=
    if s.is_loaded then (s, none) else cls_load π env "cpu" s
  match ls with
  | (s1, some e) => (s1, .error e)
  | (s1, none) =>
    match s1.pipeline with
    | none => (s1, .error "TypeError: NoneType object is not callable")
    | some p =>
      match env.invoke p image with
      | .error e => (s1, .error e)
      | .ok results => (s1, .ok (.classifications results))

/-! ## Task runner (`gui.py`)

Each background worker is a function from the adapter states it touches to
the updated states plus the ordered list of `TaskOutcome`s it pushes to the
result queue.  The registry is the fixed two-entry dict
`\x7b"Text-to-Image": ..., "Image Classification": ...\x7d` (`gui.py` 33-36),
so workers are specialised to the two adapters. -/

/-- A `TaskOutcome`: the tagged pairs pushed to `self._result_queue`
(`gui.py` lines 244, 246, 253, 257, 310, 312, 347, 349). -/
inductive Outcome where
  | load_ok (msg : String)
  | run_result (model : String) (res : RunRes)
  | chain (image_path : String) (classifications : RunRes)
  | error (msg : String)
  deriving DecidableEq, Repr

/-- Python `repr` of one `(name, message)` tuple of strings, as interpolated
into the aggregate error of `_load_all_thread`. -/
def pyReprPair (p : String × String) : String :=
  "(\x27" ++ p.1 ++ "\x27, \x27" ++ p.2 ++ "\x27)"

/-- Python `repr` of the `errors` list of `(name, message)` tuples. -/
def pyReprPairs (l : List (String × String)) : String :=
  "[" ++ String.intercalate ", " (l.map pyReprPair) ++ "]"

/-- Embedding of `AIGUI._load_model_thread` (`gui.py` lines 240-246) for the
`"Text-to-Image"` registry entry: load on the detected device, push
`load_ok` on success and `error` on failure. -/
def load_model_thread_t2i (π : Type) (env : T2IEnv π) (device : String)
    (s : ModelState π) : ModelState π × List Outcome :=
  match t2i_load π env device s with
  | (s1, none) => (s1, [.load_ok "Text-to-Image loaded."])
  | (s1, some e) => (s1, [.error ("Error loading Text-to-Image: " ++ e)])

/-- Embedding of `AIGUI._load_model_thread` for the `"Image Classification"` entry. -/
def load_model_thread_cls (π : Type) (env : ClsEnv π) (device : String)
    (s : ModelState π) : ModelState π × List Outcome :=
  match cls_load π env device s with
  | (s1, none) => (s1, [.load_ok "Image Classification loaded."])
  | (s1, some e) => (s1, [.error ("Error loading Image Classification: " ++ e)])

/-- Embedding of `AIGUI._load_all_thread` (`gui.py` lines 248-257): sequentially load the
two registered adapters in dict order, push a `load_ok` per success as it
completes, accumulate failures as `(name, message)` pairs, and if any failed
push one aggregate `error` with the Python repr of the accumulated list. -/
def load_all_thread (π κ : Type) (envT : T2IEnv π) (envC : ClsEnv κ)
    (device : String) (t2i : ModelState π) (cls : ModelState κ) :
    ModelState π × ModelState κ × List Outcome :=
  let r1 := t2i_load π envT device t2i
  let q1 : List Outcome :=
    match r1.2 with
    | none => [.load_ok "Text-to-Image loaded."]
    | some _ => []
  let errs1 : List (String × String) :=
    match r1.2 with
    | none => []
    | some e => [("Text-to-Image", e)]
  let r2 := cls_load κ envC device cls
  let q2 : List Outcome :=
    match r2.2 with
    | none => [.load_ok "Image Classification loaded."]
    | some _ => []
  let errs : List (String × String) :=
    errs1 ++ (match r2.2 with
    | none => []
    | some e => [("Image Classification", e)])
  let qerr : List Outcome :=
    if errs = [] then []
    else [.error ("Errors while loading: " ++ pyReprPairs errs)]
  (r1.1, r2.1, q1 ++ q2 ++ qerr)

/-- Embedding of `AIGUI._run_model_thread` (`gui.py` lines 341-349) for `"Text-to-Image"`:
load on the detected device if not loaded, run, push `run_result` or
`error`. -/
def run_model_thread_t2i (π : Type) (env : T2IEnv π) (device : String)
    (prompt : String) (s : ModelState π) : ModelState π × List Outcome :=
  let ls : ModelState π × Option String :=
    if s.is_loaded then (s, none) else t2i_load π env device s
  match ls with
  | (s1, some e) => (s1, [.error ("Error running Text-to-Image: " ++ e)])
  | (s1, none) =>
    match t2i_run π env prompt s1 with
    | (s2, .error e) => (s2, [.error ("Error running Text-to-Image: " ++ e)])
    | (s2, .ok res) => (s2, [.run_result "Text-to-Image" res])

/-- Embedding of `AIGUI._run_model_thread` for `"Image Classification"`. -/
def run_model_thread_cls (π : Type) (env : ClsEnv π) (device : String)
    (image : String) (s : ModelState π) : ModelState π × List Outcome :=
  let ls : ModelState π × Option String :=
    if s.is_loaded then (s, none) else cls_load π env device s
  match ls with
  | (s1, some e) => (s1, [.error ("Error running Image Classification: " ++ e)])
  | (s1, none) =>
    match cls_run π env image s1 with
    | (s2, .error e) => (s2, [.error ("Error running Image Classification: " ++ e)])
    | (s2, .ok res) => (s2, [.run_result "Image Classification" res])

/-- Stage 1 of `AIGUI._chain_text_to_image_then_classify` (`gui.py` lines
299-305): load the text-to-image adapter on the detected device if needed,
run it on the prompt and extract the produced image path via
`res.get("path")`.  `t2i_run` only ever returns an `image` result (see
`t2i_run_image`); on the impossible `classifications` shape `res.get("path")`
would be `None` and the later classifier call on `None` would raise. -/
def chain_stage1 (π : Type) (env : T2IEnv π) (device : String)
    (prompt : String) (s : ModelState π) :
    ModelState π × Except String (String × Nat) :=
  let ls : ModelState π × Option String :=
    if s.is_loaded then (s, none) else t2i_load π env device s
  match ls with
  | (s1, some e) => (s1, .error e)
  | (s1, none) =>
    match t2i_run π env prompt s1 with
    | (s2, .error e) => (s2, .error e)
    | (s2, .ok (.image path img)) => (s2, .ok (path, img))
    | (s2, .ok (.classifications _)) =>
      (s2, .error "TypeError: expected str, bytes or os.PathLike object, not NoneType")

/-- Stage 2 of `AIGUI._chain_text_to_image_then_classify` (`gui.py` lines
307-309): load the classification adapter with the default device if needed,
then run it on the stage-1 image path. -/
def chain_stage2 (π : Type) (env : ClsEnv π) (image_path : String)
    (s : ModelState π) : ModelState π × Except String RunRes :=
  let ls : ModelState π × Option String :=
    if s.is_loaded then (s, none) else cls_load π env "cpu" s
  match ls with
  | (s1, some e) => (s1, .error e)
  | (s1, none) => cls_run π env image_path s1

/-- Embedding of `AIGUI._chain_text_to_image_then_classify` (`gui.py` lines 296-312):
run stage 1, feed its image path to stage 2, push a single `chain` outcome
on success; any exception at either stage is caught at the task boundary
and converted into a single `error` outcome (`except` on line 311). -/
def chain_thread (π κ : Type) (envT : T2IEnv π) (envC : ClsEnv κ)
    (device : String) (prompt : String)
    (t2i : ModelState π) (cls : ModelState κ) :
    ModelState π × ModelState κ × List Outcome :=
  match chain_stage1 π envT device prompt t2i with
  | (t2i1, .error e) => (t2i1, cls, [.error ("Chain error: " ++ e)])
  | (t2i1, .ok (path, _)) =>
    match chain_stage2 κ envC path cls with
    | (cls1, .error e) => (t2i1, cls1, [.error ("Chain error: " ++ e)])
    | (cls1, .ok cres) => (t2i1, cls1, [.chain path cres])

/-! ## Result inbox / poller (`gui.py` lines 352-396)

Handlers run on the UI thread.  A handler is modelled as
`Except String (List String)`: the lines it appends to the output log, or
the message of the Python exception it raises.  Tk UI mutation (labels,
modal dialogs, image display) is not further modelled. -/

/-- Fixed-point rendering of a score in the `:.3f` style of a score, used in the output lines (half-up
rounding stands in for Python float formatting; no theorem depends on it). -/
def fmt3 (q : Rat) : String :=
  let k : Int := ⌊q * 1000 + 1/2⌋
  let fp := (k % 1000).toNat
  let fs := toString fp
  toString (k / 1000) ++ "." ++
    (String.mk (List.replicate (3 - fs.length) (Char.ofNat 48))) ++ fs

/-- The keys of the Python dict that a `RunRes` value stands for, in
insertion order (`models.py` lines 94 and 121). -/
def runResKeys : RunRes → List String
  | .image _ _ => ["type", "path", "pil_image"]
  | .classifications _ => ["type", "results"]

/-- Accessing attribute `attr` on a Python `str` value raises
`AttributeError` (strings have no `.get` method). -/
def strAttr (s attr : String) : Except String String :=
  .error ("AttributeError: \x27" ++ s ++ "\x27 is a str and has no attribute \x27" ++ attr ++ "\x27")

/-- The `"load_ok"` branch of `_poll_results` (`gui.py` lines 356-358):
append the message (and refresh the model info panel). -/
def handle_load_ok (msg : String) : Except String (List String) :=
  .ok [msg]

/-- Embedding of `AIGUI._handle_model_result` (`gui.py` lines 372-385): dispatch on
`res["type"]`; image results log the path (and display the image),
classification results log one `- label: score` line per entry. -/
def handle_model_result (model : String) (res : RunRes) :
    Except String (List String) :=
  match res with
  | .image path _ => .ok [model ++ " generated image: " ++ path]
  | .classifications rs =>
    .ok [String.intercalate "\n"
      ((model ++ " results:") ::
        rs.map (fun r => "- " ++ r.label ++ ": " ++ fmt3 r.score))]

/-- Embedding of `AIGUI._handle_chain_result` (`gui.py` lines 387-396): logs the saved
path, displays the image, then builds the classification lines with
`for r in cls_res`.  `cls_res` is the dict returned by
`ImageClassificationModel.run`, so the loop iterates its keys — Python
strings — and `r.get(\x27label\x27)` raises `AttributeError` on the first
key.  The fold below mirrors that loop. -/
def handle_chain_result (image_path : String) (cls_res : RunRes) :
    Except String (List String) :=
  match (runResKeys cls_res).foldlM
      (fun lines k =>
        (strAttr k "get").map (fun lbl => lines ++ ["- " ++ lbl]))
      ["Chain classification results:"] with
  | .error e => .error e
  | .ok lines =>
    .ok [("Generated image saved at: " ++ image_path),
         String.intercalate "\n" lines]

/-- The `"error"` branch of `_poll_results` (`gui.py` lines 363-365):
append `[ERROR] msg` (and show a modal dialog). -/
def handle_error (msg : String) : Except String (List String) :=
  .ok ["[ERROR] " ++ msg]

/-- Dispatch of one dequeued outcome by tag (`gui.py` lines 355-365). -/
def dispatch : Outcome → Except String (List String)
  | .load_ok m => handle_load_ok m
  | .run_result model res => handle_model_result model res
  | .chain p c => handle_chain_result p c
  | .error m => handle_error m

/-- The observable behaviour of one invocation of `_poll_results`:
the outcomes whose handler was invoked (in dequeue order), the output lines
appended, the outcomes left in the inbox, and whether `self.after(200,
self._poll_results)` was reached to schedule the next tick. -/
structure PollResult where
  dispatched : List Outcome
  output : List String
  remaining : List Outcome
  rescheduled : Bool
  deriving DecidableEq, Repr

/-- Embedding of `AIGUI._poll_results` (`gui.py` lines 352-369) on an inbox holding the
given outcomes: dequeue with `get_nowait` and dispatch until the queue is
empty (`queue.Empty` is the only caught exception, line 366), then
reschedule.  An exception raised by a handler escapes the loop before the
`self.after(200, ...)` call on line 369: nothing further is dequeued and no
next tick is scheduled. -/
def poll_results : List Outcome → PollResult
  | [] => ⟨[], [], [], true⟩
  | o :: rest =>
    match dispatch o with
    | .ok lines =>
      let r := poll_results rest
      ⟨o :: r.dispatched, lines ++ r.output, r.remaining, r.rescheduled⟩
    | .error _ => ⟨[o], [], rest, false⟩

/-- The outcome sequences a single worker can push, each produced by one of
the worker functions above (`gui.py`: `_load_model_thread`,
`_load_all_thread`, `_run_model_thread`,
`_chain_text_to_image_then_classify`). -/
def SingleWorkerTrace (t : List Outcome) : Prop :=
  (∃ (π : Type) (env : T2IEnv π) (d : String) (s : ModelState π),
      t = (load_model_thread_t2i π env d s).2) ∨
  (∃ (π : Type) (env : ClsEnv π) (d : String) (s : ModelState π),
      t = (load_model_thread_cls π env d s).2) ∨
  (∃ (π κ : Type) (envT : T2IEnv π) (envC : ClsEnv κ) (d : String)
      (t2i : ModelState π) (cls : ModelState κ),
      t = (load_all_thread π κ envT envC d t2i cls).2.2) ∨
  (∃ (π : Type) (env : T2IEnv π) (d p : String) (s : ModelState π),
      t = (run_model_thread_t2i π env d p s).2) ∨
  (∃ (π : Type) (env : ClsEnv π) (d i : String) (s : ModelState π),
      t = (run_model_thread_cls π env d i s).2) ∨
  (∃ (π κ : Type) (envT : T2IEnv π) (envC : ClsEnv κ) (d p : String)
      (t2i : ModelState π) (cls : ModelState κ),
      t = (chain_thread π κ envT envC d p t2i cls).2.2)

/-! ## Decorators (`oop_concepts.py` lines 11-30)

An effectful Python callable is modelled as a function from an argument and
a clock reading to a result, the console lines it prints, and the clock
after the call (`time.time()` readings are the clock values). -/

/-- A traced unary callable: argument and start time in, result, printed
console lines and end time out. -/
def Traced (α β : Type) : Type := α → Nat → β × List String × Nat

/-- Rendering of the elapsed seconds in the `[TIME]` line (stands in for
`f"\x7bt1-t0:.2f\x7d"`; no theorem depends on it). -/
def fmtSecs (n : Nat) : String := toString n

/-- Embedding of `log_decorator` (`oop_concepts.py` lines 11-19): print an entering
line, call the wrapped function, print an exiting line, return the wrapped
function's result unchanged. -/
def log_decorator (α β : Type) (fname : String) (f : Traced α β) :
    Traced α β :=
  fun a t0 =>
    let r := f a t0
    (r.1, ("[LOG] Entering " ++ fname) :: r.2.1 ++ ["[LOG] Exiting " ++ fname],
     r.2.2)

/-- Embedding of `time_decorator` (`oop_concepts.py` lines 21-30): read the clock, call
the wrapped function, read the clock again, print the elapsed time, return
the wrapped function's result unchanged. -/
def time_decorator (α β : Type) (fname : String) (f : Traced α β) :
    Traced α β :=
  fun a t0 =>
    let r := f a t0
    (r.1, r.2.1 ++ ["[TIME] " ++ fname ++ " took " ++ fmtSecs (r.2.2 - t0) ++ "s"],
     r.2.2)

/-! ## Device detection (`utils.py` lines 4-14) -/

/-- A torch-like module as probed by `detect_device`: each availability
probe either returns a boolean or raises (`Except.error`).  `has_mps`
models `hasattr(torch.backends, "mps")`, which can itself raise through a
failing attribute access. -/
structure TorchLike where
  cuda_available : Except String Bool
  has_mps : Except String Bool
  mps_available : Except String Bool

/-- Embedding of `detect_device` (`utils.py` lines 4-14): try CUDA, then MPS (guarded by
`hasattr` and short-circuit `and`); any exception inside the `try` falls
through to `"cpu"`. -/
def detect_device (t : TorchLike) : String :=
  match t.cuda_available with
  | .error _ => "cpu"
  | .ok true => "cuda"
  | .ok false =>
    match t.has_mps with
    | .error _ => "cpu"
    | .ok false => "cpu"
    | .ok true =>
      match t.mps_available with
      | .error _ => "cpu"
      | .ok true => "mps"
      | .ok false => "cpu"

/-- Some availability probe of `detect_device` raises, at the point where
the source would evaluate it. -/
def probeRaises (t : TorchLike) : Prop :=
  (∃ e, t.cuda_available = .error e) ∨
  (t.cuda_available = .ok false ∧ (∃ e, t.has_mps = .error e)) ∨
  (t.cuda_available = .ok false ∧ t.has_mps = .ok true ∧
    (∃ e, t.mps_available = .error e))

/-! ## Concrete instances used by witnesses and counterexamples -/

/-- A text-to-image environment in which every external call succeeds. -/
def envTOk : T2IEnv Nat :=
  ⟨true, fun _ _ => .ok 1, fun p _ => .ok p, fun _ _ => .ok 7,
   fun _ => "/abs/generated_image.png"⟩

/-- A text-to-image environment in which `StableDiffusionPipeline` is
unavailable (`StableDiffusionPipeline is None`, `models.py` lines 10-13). -/
def envTNoDiffusers : T2IEnv Nat :=
  ⟨false, fun _ _ => .ok 1, fun p _ => .ok p, fun _ _ => .ok 7,
   fun _ => "/abs/generated_image.png"⟩

/-- A text-to-image environment in which `from_pretrained` succeeds but the
`.to(device)` move raises. -/
def envTMoveFails : T2IEnv Nat :=
  ⟨true, fun _ _ => .ok 1, fun _ _ => .error "CUDA out of memory",
   fun _ _ => .ok 7, fun _ => "/abs/generated_image.png"⟩

/-- A classification environment in which every external call succeeds. -/
def envCOk : ClsEnv Nat :=
  ⟨fun _ _ => .ok 2,
   fun _ _ => .ok [⟨"tabby cat", 91/100⟩, ⟨"tiger cat", 5/100⟩]⟩

/-- A classification environment in which the `transformers.pipeline` call
raises. -/
def envCFails : ClsEnv Nat :=
  ⟨fun _ _ => .error "Connection error while downloading",
   fun _ _ => .error "unreachable"⟩

/-- The text-to-image adapter as constructed by the GUI (`gui.py` line 34). -/
def t2iN : ModelState Nat := t2i_init Nat "runwayml/stable-diffusion-v1-5"

/-- The classification adapter as constructed by the GUI (`gui.py` line 35). -/
def clsN : ModelState Nat := cls_init Nat "google/vit-base-patch16-224"

/-! ## Basic adapter lemmas -/

/-- A loaded adapter's `load` is a no-op returning normally, whatever the
environment and device (`models.py` lines 71-72). -/
theorem t2i_load_of_loaded (π : Type) (env : T2IEnv π) (d : String)
    (s : ModelState π) (h : s.is_loaded = true) :
    t2i_load π env d s = (s, none) := by
  simp [t2i_load, h]

/-- A loaded classification adapter's `load` is a no-op returning normally
(`models.py` lines 106-107). -/
theorem cls_load_of_loaded (π : Type) (env : ClsEnv π) (d : String)
    (s : ModelState π) (h : s.is_loaded = true) :
    cls_load π env d s = (s, none) := by
  simp [cls_load, h]

/-- When `TextToImageModel.load` returns without raising, the flag is set. -/
theorem t2i_load_ok_loaded (π : Type) (env : T2IEnv π) (d : String)
    (s : ModelState π) (h : (t2i_load π env d s).2 = none) :
    (t2i_load π env d s).1.is_loaded = true := by
  by_cases hl : s.is_loaded = true
  · simp [t2i_load, hl]
  · simp only [Bool.not_eq_true] at hl
    by_cases hsd : env.sdAvailable = false
    · simp [t2i_load, hl, hsd] at h
    · cases hfp : env.fromPretrained s.name (dtypeFor d) with
      | error e => simp [t2i_load, hl, hsd, hfp] at h
      | ok p =>
        cases htd : env.toDevice p d with
        | error e => simp [t2i_load, hl, hsd, hfp, htd] at h
        | ok p2 => simp [t2i_load, hl, hsd, hfp, htd]

/-- When `ImageClassificationModel.load` returns without raising, the flag
is set. -/
theorem cls_load_ok_loaded (π : Type) (env : ClsEnv π) (d : String)
    (s : ModelState π) (h : (cls_load π env d s).2 = none) :
    (cls_load π env d s).1.is_loaded = true := by
  by_cases hl : s.is_loaded = true
  · simp [cls_load, hl]
  · simp only [Bool.not_eq_true] at hl
    cases hfp : env.hfPipeline s.name (-1) with
    | error e => simp [cls_load, hl, hfp] at h
    | ok p => simp [cls_load, hl, hfp]

/-- C3: for every adapter, after a `load` call that returns normally the
loaded flag is `true`, and any further `load` call — under any environment
and any device, in particular environments whose initialisation calls would
fail — returns immediately with the state unchanged and no error: the
underlying initialisation is not invoked again. -/
theorem load_idempotent (π κ : Type) (envT : T2IEnv π) (envC : ClsEnv κ)
    (dT dC : String) (sT : ModelState π) (sC : ModelState κ)
    (hT : (t2i_load π envT dT sT).2 = none)
    (hC : (cls_load κ envC dC sC).2 = none) :
    ((t2i_load π envT dT sT).1.is_loaded = true ∧
      ∀ (env2 : T2IEnv π) (d2 : String),
        t2i_load π env2 d2 (t2i_load π envT dT sT).1 =
          ((t2i_load π envT dT sT).1, none)) ∧
    ((cls_load κ envC dC sC).1.is_loaded = true ∧
      ∀ (env2 : ClsEnv κ) (d2 : String),
        cls_load κ env2 d2 (cls_load κ envC dC sC).1 =
          ((cls_load κ envC dC sC).1, none)) := by
  refine ⟨⟨t2i_load_ok_loaded π envT dT sT hT, fun env2 d2 => ?_⟩,
          ⟨cls_load_ok_loaded κ envC dC sC hC, fun env2 d2 => ?_⟩⟩
  · exact t2i_load_of_loaded π env2 d2 _ (t2i_load_ok_loaded π envT dT sT hT)
  · exact cls_load_of_loaded κ env2 d2 _ (cls_load_ok_loaded κ envC dC sC hC)

/-- Witness for C3: a concrete first load succeeds, and a second load under
environments whose initialisation calls fail is still a silent no-op. -/
theorem load_idempotent_witness :
    t2i_load Nat envTNoDiffusers "cuda" (t2i_load Nat envTOk "cpu" t2iN).1 =
      ((t2i_load Nat envTOk "cpu" t2iN).1, none) ∧
    cls_load Nat envCFails "cuda" (cls_load Nat envCOk "cpu" clsN).1 =
      ((cls_load Nat envCOk "cpu" clsN).1, none) :=
  ⟨(load_idempotent Nat Nat envTOk envCOk "cpu" "cpu" t2iN clsN
      (by decide) (by decide)).1.2 envTNoDiffusers "cuda",
   (load_idempotent Nat Nat envTOk envCOk "cpu" "cpu" t2iN clsN
      (by decide) (by decide)).2.2 envCFails "cuda"⟩

/-- C4: for every adapter in the unloaded state, `run` first performs the
adapter's `load` with the default device `"cpu"` — the state after `run` is
exactly the state after that implicit load — and whenever `run` returns a
result (rather than raising) the loaded flag is `true` afterwards. -/
theorem run_autoloads (π κ : Type) (envT : T2IEnv π) (envC : ClsEnv κ)
    (prompt image : String) (sT : ModelState π) (sC : ModelState κ)
    (hT : sT.is_loaded = false) (hC : sC.is_loaded = false) :
    ((t2i_run π envT prompt sT).1 = (t2i_load π envT "cpu" sT).1 ∧
      ∀ r, (t2i_run π envT prompt sT).2 = .ok r →
        (t2i_run π envT prompt sT).1.is_loaded = true) ∧
    ((cls_run κ envC image sC).1 = (cls_load κ envC "cpu" sC).1 ∧
      ∀ r, (cls_run κ envC image sC).2 = .ok r →
        (cls_run κ envC image sC).1.is_loaded = true) := by
  constructor
  · rcases hload : t2i_load π envT "cpu" sT with ⟨s1, o⟩
    cases o with
    | some e => simp [t2i_run, hT, hload]
    | none =>
      have hs1 : s1.is_loaded = true := by
        have h2 : (t2i_load π envT "cpu" sT).2 = none := by rw [hload]
        have := t2i_load_ok_loaded π envT "cpu" sT h2
        rw [hload] at this
        exact this
      cases hp : s1.pipeline with
      | none => simp [t2i_run, hT, hload, hp]
      | some p =>
        cases hi : envT.invoke p prompt with
        | error e => simp [t2i_run, hT, hload, hp, hi]
        | ok img => simp [t2i_run, hT, hload, hp, hi, hs1]
  · rcases hload : cls_load κ envC "cpu" sC with ⟨s1, o⟩
    cases o with
    | some e => simp [cls_run, hC, hload]
    | none =>
      have hs1 : s1.is_loaded = true := by
        have h2 : (cls_load κ envC "cpu" sC).2 = none := by rw [hload]
        have := cls_load_ok_loaded κ envC "cpu" sC h2
        rw [hload] at this
        exact this
      cases hp : s1.pipeline with
      | none => simp [cls_run, hC, hload, hp]
      | some p =>
        cases hi : envC.invoke p image with
        | error e => simp [cls_run, hC, hload, hp, hi]
        | ok res => simp [cls_run, hC, hload, hp, hi, hs1]

/-- Witness for C4: concrete unloaded adapters, successful environments. -/
theorem run_autoloads_witness :
    (t2i_run Nat envTOk "a cat" t2iN).1 = (t2i_load Nat envTOk "cpu" t2iN).1 ∧
    (t2i_run Nat envTOk "a cat" t2iN).1.is_loaded = true ∧
    (cls_run Nat envCOk "/abs/generated_image.png" clsN).1 =
      (cls_load Nat envCOk "cpu" clsN).1 ∧
    (cls_run Nat envCOk "/abs/generated_image.png" clsN).1.is_loaded = true :=
  ⟨(run_autoloads Nat Nat envTOk envCOk "a cat" "/abs/generated_image.png"
      t2iN clsN rfl rfl).1.1,
   (run_autoloads Nat Nat envTOk envCOk "a cat" "/abs/generated_image.png"
      t2iN clsN rfl rfl).1.2 (RunRes.image "/abs/generated_image.png" 7)
      rfl,
   (run_autoloads Nat Nat envTOk envCOk "a cat" "/abs/generated_image.png"
      t2iN clsN rfl rfl).2.1,
   (run_autoloads Nat Nat envTOk envCOk "a cat" "/abs/generated_image.png"
      t2iN clsN rfl rfl).2.2
      (RunRes.classifications [⟨"tabby cat", 91/100⟩, ⟨"tiger cat", 5/100⟩])
      rfl⟩

/-- C9: the wrappers produced by `log_decorator` and `time_decorator`, and
their compositions in either order, return exactly the wrapped function's
result (and final clock); they only add console lines. -/
theorem decorators_preserve_result (α β : Type) (f : Traced α β)
    (n1 n2 : String) (a : α) (t0 : Nat) :
    (log_decorator α β n1 f a t0).1 = (f a t0).1 ∧
    (time_decorator α β n1 f a t0).1 = (f a t0).1 ∧
    (log_decorator α β n1 (time_decorator α β n2 f) a t0).1 = (f a t0).1 ∧
    (time_decorator α β n2 (log_decorator α β n1 f) a t0).1 = (f a t0).1 ∧
    (log_decorator α β n1 f a t0).2.2 = (f a t0).2.2 ∧
    (time_decorator α β n1 f a t0).2.2 = (f a t0).2.2 :=
  ⟨rfl, rfl, rfl, rfl, rfl, rfl⟩

/-- C10: `detect_device` always returns one of `"cuda"`, `"mps"`, `"cpu"`
(it is total — modelled as a function, it cannot propagate an exception),
and it returns `"cpu"` whenever one of the availability probes raises. -/
theorem detect_device_total (t : TorchLike) :
    (detect_device t = "cuda" ∨ detect_device t = "mps" ∨
      detect_device t = "cpu") ∧
    (probeRaises t → detect_device t = "cpu") := by
  constructor
  · cases h1 : t.cuda_available with
    | error e => simp [detect_device, h1]
    | ok b =>
      cases b with
      | true => simp [detect_device, h1]
      | false =>
        cases h2 : t.has_mps with
        | error e => simp [detect_device, h1, h2]
        | ok b2 =>
          cases b2 with
          | false => simp [detect_device, h1, h2]
          | true =>
            cases h3 : t.mps_available with
            | error e => simp [detect_device, h1, h2, h3]
            | ok b3 => cases b3 <;> simp [detect_device, h1, h2, h3]
  · intro hp
    rcases hp with ⟨e, he⟩ | ⟨hc, e, he⟩ | ⟨hc, hm, e, he⟩ <;>
      simp [detect_device, *]

/-- A torch module whose CUDA probe raises. -/
def torchCudaRaises : TorchLike :=
  ⟨.error "CUDA driver initialization failed", .ok true, .ok true⟩

/-- Witness for C10: a probe that raises yields `"cpu"`. -/
theorem detect_device_total_witness : detect_device torchCudaRaises = "cpu" :=
  (detect_device_total torchCudaRaises).2
    (Or.inl ⟨"CUDA driver initialization failed", rfl⟩)

/-! ## The loaded-flag / pipeline-handle invariant (C2) -/

/-- The state after `run` is the state after the implicit `"cpu"` load when
the adapter was unloaded, and the unchanged state otherwise. -/
theorem t2i_run_state (π : Type) (env : T2IEnv π) (p : String)
    (s : ModelState π) :
    (t2i_run π env p s).1 =
      if s.is_loaded = true then s else (t2i_load π env "cpu" s).1 := by
  by_cases hl : s.is_loaded = true
  · cases hp : s.pipeline with
    | none => simp [t2i_run, hl, hp]
    | some q => cases hi : env.invoke q p <;> simp [t2i_run, hl, hp, hi]
  · simp only [Bool.not_eq_true] at hl
    rcases hload : t2i_load π env "cpu" s with ⟨s1, o⟩
    cases o with
    | some e => simp [t2i_run, hl, hload]
    | none =>
      cases hp : s1.pipeline with
      | none => simp [t2i_run, hl, hload, hp]
      | some q => cases hi : env.invoke q p <;> simp [t2i_run, hl, hload, hp, hi]

/-- The classification analogue of `t2i_run_state`. -/
theorem cls_run_state (π : Type) (env : ClsEnv π) (i : String)
    (s : ModelState π) :
    (cls_run π env i s).1 =
      if s.is_loaded = true then s else (cls_load π env "cpu" s).1 := by
  by_cases hl : s.is_loaded = true
  · cases hp : s.pipeline with
    | none => simp [cls_run, hl, hp]
    | some q => cases hi : env.invoke q i <;> simp [cls_run, hl, hp, hi]
  · simp only [Bool.not_eq_true] at hl
    rcases hload : cls_load π env "cpu" s with ⟨s1, o⟩
    cases o with
    | some e => simp [cls_run, hl, hload]
    | none =>
      cases hp : s1.pipeline with
      | none => simp [cls_run, hl, hload, hp]
      | some q => cases hi : env.invoke q i <;> simp [cls_run, hl, hload, hp, hi]

/-- A `TextToImageModel.load` call that raises partway: `from_pretrained`
succeeded (line 77 assigned the pipeline) but the `.to(device)` move raised
(line 79), so line 80 never set the flag. -/
def t2i_load_partial (π : Type) (env : T2IEnv π) (d : String)
    (s : ModelState π) : Prop :=
  s.is_loaded = false ∧ env.sdAvailable = true ∧
  ∃ p, env.fromPretrained s.name (dtypeFor d) = .ok p ∧
    ∃ e, env.toDevice p d = .error e

/-- `t2i_load` preserves the flag-implies-handle direction. -/
theorem t2i_load_weak (π : Type) (env : T2IEnv π) (d : String)
    (s : ModelState π) (h : s.is_loaded = true → s.pipeline.isSome = true) :
    (t2i_load π env d s).1.is_loaded = true →
      (t2i_load π env d s).1.pipeline.isSome = true := by
  by_cases hl : s.is_loaded = true
  · simpa [t2i_load, hl] using h
  · simp only [Bool.not_eq_true] at hl
    by_cases hsd : env.sdAvailable = false
    · simp [t2i_load, hl, hsd]
    · cases hfp : env.fromPretrained s.name (dtypeFor d) with
      | error e => simp [t2i_load, hl, hsd, hfp]
      | ok p =>
        cases htd : env.toDevice p d with
        | error e => simp [t2i_load, hl, hsd, hfp, htd]
        | ok p2 => simp [t2i_load, hl, hsd, hfp, htd]

/-- `t2i_load` preserves the full equivalence provided it does not raise
between the pipeline assignment and the flag set. -/
theorem t2i_load_iff (π : Type) (env : T2IEnv π) (d : String)
    (s : ModelState π) (h : s.is_loaded = true ↔ s.pipeline.isSome = true)
    (hnp : ¬ t2i_load_partial π env d s) :
    ((t2i_load π env d s).1.is_loaded = true ↔
      (t2i_load π env d s).1.pipeline.isSome = true) := by
  by_cases hl : s.is_loaded = true
  · simpa [t2i_load, hl] using h
  · simp only [Bool.not_eq_true] at hl
    by_cases hsd : env.sdAvailable = false
    · simpa [t2i_load, hl, hsd] using h
    · cases hfp : env.fromPretrained s.name (dtypeFor d) with
      | error e => simpa [t2i_load, hl, hsd, hfp] using h
      | ok p =>
        cases htd : env.toDevice p d with
        | error e =>
          exact absurd ⟨hl, by simpa using hsd, p, hfp, e, htd⟩ hnp
        | ok p2 => simp [t2i_load, hl, hsd, hfp, htd]

/-- `cls_load` always preserves the full equivalence: assignment and flag
set cannot be separated by a failure (`models.py` lines 110-111). -/
theorem cls_load_iff (π : Type) (env : ClsEnv π) (d : String)
    (s : ModelState π) (h : s.is_loaded = true ↔ s.pipeline.isSome = true) :
    ((cls_load π env d s).1.is_loaded = true ↔
      (cls_load π env d s).1.pipeline.isSome = true) := by
  by_cases hl : s.is_loaded = true
  · simpa [cls_load, hl] using h
  · simp only [Bool.not_eq_true] at hl
    cases hfp : env.hfPipeline s.name (-1) with
    | error e => simpa [cls_load, hl, hfp] using h
    | ok p => simp [cls_load, hl, hfp]

/-- Text-to-image adapter states reachable by any sequence of constructor,
`load` and `run` calls, under arbitrary (and varying) environments. -/
inductive T2IReach (π : Type) : ModelState π → Prop where
  | init (mn : String) : T2IReach π (t2i_init π mn)
  | load (env : T2IEnv π) (d : String) (s : ModelState π) :
      T2IReach π s → T2IReach π (t2i_load π env d s).1
  | run (env : T2IEnv π) (p : String) (s : ModelState π) :
      T2IReach π s → T2IReach π (t2i_run π env p s).1

/-- Classification adapter states reachable by any sequence of constructor,
`load` and `run` calls. -/
inductive ClsReach (π : Type) : ModelState π → Prop where
  | init (mn : String) : ClsReach π (cls_init π mn)
  | load (env : ClsEnv π) (d : String) (s : ModelState π) :
      ClsReach π s → ClsReach π (cls_load π env d s).1
  | run (env : ClsEnv π) (i : String) (s : ModelState π) :
      ClsReach π s → ClsReach π (cls_run π env i s).1

/-- Text-to-image adapter states reachable while no `load` step (explicit,
or implicit inside `run`) raises partway between the pipeline assignment and
the flag set. -/
inductive T2IReachSafe (π : Type) : ModelState π → Prop where
  | init (mn : String) : T2IReachSafe π (t2i_init π mn)
  | load (env : T2IEnv π) (d : String) (s : ModelState π) :
      ¬ t2i_load_partial π env d s →
      T2IReachSafe π s → T2IReachSafe π (t2i_load π env d s).1
  | run (env : T2IEnv π) (p : String) (s : ModelState π) :
      ¬ t2i_load_partial π env "cpu" s →
      T2IReachSafe π s → T2IReachSafe π (t2i_run π env p s).1

/-- C2 (amended): in every reachable adapter state a set loaded flag implies
a non-null pipeline handle; the full equivalence `loaded iff handle
non-null` holds in every reachable state of the classification adapter, and
in every state of the text-to-image adapter reached without a load step
raising between its pipeline assignment (`models.py` line 77) and its flag
set (line 80) — i.e. without the `.to(device)` move raising. -/
theorem loaded_iff_pipeline_amended (π : Type) :
    (∀ s : ModelState π, T2IReach π s →
      s.is_loaded = true → s.pipeline.isSome = true) ∧
    (∀ s : ModelState π, ClsReach π s →
      (s.is_loaded = true ↔ s.pipeline.isSome = true)) ∧
    (∀ s : ModelState π, T2IReachSafe π s →
      (s.is_loaded = true ↔ s.pipeline.isSome = true)) := by
  refine ⟨?_, ?_, ?_⟩
  · intro s h
    induction h with
    | init mn => simp [t2i_init]
    | load env d s' _ ih => exact t2i_load_weak π env d s' ih
    | run env p s' _ ih =>
      rw [t2i_run_state π env p s']
      by_cases hl : s'.is_loaded = true
      · simpa [hl] using ih
      · simp only [Bool.not_eq_true] at hl
        simpa [hl] using t2i_load_weak π env "cpu" s' ih
  · intro s h
    induction h with
    | init mn => simp [cls_init]
    | load env d s' _ ih => exact cls_load_iff π env d s' ih
    | run env i s' _ ih =>
      rw [cls_run_state π env i s']
      by_cases hl : s'.is_loaded = true
      · simpa [hl] using ih
      · simp only [Bool.not_eq_true] at hl
        simpa [hl] using cls_load_iff π env "cpu" s' ih
  · intro s h
    induction h with
    | init mn => simp [t2i_init]
    | load env d s' hnp _ ih => exact t2i_load_iff π env d s' ih hnp
    | run env p s' hnp _ ih =>
      rw [t2i_run_state π env p s']
      by_cases hl : s'.is_loaded = true
      · simpa [hl] using ih
      · simp only [Bool.not_eq_true] at hl
        simpa [hl] using t2i_load_iff π env "cpu" s' ih hnp

/-- Counterexample to C2 as stated: the state reached when
`TextToImageModel.load`'s `.to(device)` move raises after `from_pretrained`
succeeded is reachable, has a non-null pipeline handle, and has
`_is_loaded = false` — the claimed equivalence fails there. -/
theorem loaded_iff_pipeline_counterexample :
    T2IReach Nat (t2i_load Nat envTMoveFails "cpu" t2iN).1 ∧
    (t2i_load Nat envTMoveFails "cpu" t2iN).1.pipeline.isSome = true ∧
    (t2i_load Nat envTMoveFails "cpu" t2iN).1.is_loaded = false :=
  ⟨T2IReach.load envTMoveFails "cpu" t2iN
     (T2IReach.init "runwayml/stable-diffusion-v1-5"),
   by decide, by decide⟩

/-- Witness for the amended C2: the equivalence at concrete reachable
states of both adapters. -/
theorem loaded_iff_pipeline_amended_witness :
    ((t2i_load Nat envTOk "cpu" t2iN).1.is_loaded = true ↔
      (t2i_load Nat envTOk "cpu" t2iN).1.pipeline.isSome = true) ∧
    ((cls_load Nat envCOk "cpu" clsN).1.is_loaded = true ↔
      (cls_load Nat envCOk "cpu" clsN).1.pipeline.isSome = true) :=
  ⟨(loaded_iff_pipeline_amended Nat).2.2 _
     (T2IReachSafe.load envTOk "cpu" t2iN
       (fun hp => by
         obtain ⟨-, -, p, -, e, he⟩ := hp
         simp [envTOk] at he)
       (T2IReachSafe.init "runwayml/stable-diffusion-v1-5")),
   (loaded_iff_pipeline_amended Nat).2.1 _
     (ClsReach.load envCOk "cpu" clsN
       (ClsReach.init "google/vit-base-patch16-224"))⟩

/-! ## The chained task (C1, C7) -/

/-- A successful stage 1 is exactly a successful `TextToImageModel.run`
returning an image result whose path is the one handed on. -/
theorem chain_stage1_ok (π : Type) (env : T2IEnv π) (d prompt : String)
    (s : ModelState π) (p : String) (img : Nat)
    (h : (chain_stage1 π env d prompt s).2 = .ok (p, img)) :
    ∃ s1, (t2i_run π env prompt s1).2 = .ok (.image p img) := by
  by_cases hl : s.is_loaded = true
  · refine ⟨s, ?_⟩
    simp only [chain_stage1, hl, if_true] at h
    rcases hrun : t2i_run π env prompt s with ⟨s2, r⟩
    rw [hrun] at h
    cases r with
    | error e => simp at h
    | ok rr =>
      cases rr with
      | image path i => simp at h; simp [h.1, h.2]
      | classifications rs => simp at h
  · simp only [Bool.not_eq_true] at hl
    simp only [chain_stage1, hl, Bool.false_eq_true, if_false] at h
    rcases hload : t2i_load π env d s with ⟨sa, o⟩
    rw [hload] at h
    cases o with
    | some e => simp at h
    | none =>
      refine ⟨sa, ?_⟩
      simp only [] at h
      rcases hrun : t2i_run π env prompt sa with ⟨s2, r⟩
      rw [hrun] at h
      cases r with
      | error e => simp at h
      | ok rr =>
        cases rr with
        | image path i => simp at h; simp [h.1, h.2]
        | classifications rs => simp at h

/-- A successful stage 2 is exactly a successful
`ImageClassificationModel.run` on the stage-1 path. -/
theorem chain_stage2_ok (π : Type) (env : ClsEnv π) (p : String)
    (s : ModelState π) (c : RunRes)
    (h : (chain_stage2 π env p s).2 = .ok c) :
    ∃ s1, (cls_run π env p s1).2 = .ok c := by
  by_cases hl : s.is_loaded = true
  · simp only [chain_stage2, hl, if_true] at h
    exact ⟨s, h⟩
  · simp only [Bool.not_eq_true] at hl
    simp only [chain_stage2, hl, Bool.false_eq_true, if_false] at h
    rcases hload : cls_load π env "cpu" s with ⟨sa, o⟩
    rw [hload] at h
    cases o with
    | some e => simp at h
    | none => exact ⟨sa, h⟩

/-- C1: for every non-empty prompt, a `runChain` whose two stages return
normally pushes exactly one outcome, a `chain` outcome; its `image_path` is
the path produced by the text-to-image stage's `run`, and its
`classifications` is the result of running the classification adapter on
that same path. -/
theorem runChain_success (π κ : Type) (envT : T2IEnv π) (envC : ClsEnv κ)
    (device prompt : String) (t2i : ModelState π) (cls : ModelState κ)
    (p : String) (img : Nat) (c : RunRes)
    (_hprompt : prompt ≠ "")
    (h1 : (chain_stage1 π envT device prompt t2i).2 = .ok (p, img))
    (h2 : (chain_stage2 κ envC p cls).2 = .ok c) :
    (chain_thread π κ envT envC device prompt t2i cls).2.2 =
      [Outcome.chain p c] ∧
    (∃ s1, (t2i_run π envT prompt s1).2 = .ok (.image p img)) ∧
    (∃ s2, (cls_run κ envC p s2).2 = .ok c) := by
  refine ⟨?_, chain_stage1_ok π envT device prompt t2i p img h1,
          chain_stage2_ok κ envC p cls c h2⟩
  rcases hs1 : chain_stage1 π envT device prompt t2i with ⟨a, r1⟩
  rw [hs1] at h1
  have h1' : r1 = .ok (p, img) := h1
  subst h1'
  rcases hs2 : chain_stage2 κ envC p cls with ⟨b, r2⟩
  rw [hs2] at h2
  have h2' : r2 = .ok c := h2
  subst h2'
  simp [chain_thread, hs1, hs2]

/-- Witness for C1: a fully successful concrete chain. -/
theorem runChain_success_witness :
    (chain_thread Nat Nat envTOk envCOk "cpu" "a cat" t2iN clsN).2.2 =
      [Outcome.chain "/abs/generated_image.png"
        (RunRes.classifications
          [⟨"tabby cat", 91/100⟩, ⟨"tiger cat", 5/100⟩])] :=
  (runChain_success Nat Nat envTOk envCOk "cpu" "a cat" t2iN clsN
    "/abs/generated_image.png" 7
    (RunRes.classifications [⟨"tabby cat", 91/100⟩, ⟨"tiger cat", 5/100⟩])
    (by decide) rfl rfl).1

/-- C7: if either stage of the chain raises, the task pushes exactly one
`error` outcome — in particular no `chain` outcome — and the exception does
not propagate (the task boundary `except` converts it; the embedding of the
task is a total function). -/
theorem runChain_failure (π κ : Type) (envT : T2IEnv π) (envC : ClsEnv κ)
    (device prompt : String) (t2i : ModelState π) (cls : ModelState κ)
    (e : String)
    (h : (chain_stage1 π envT device prompt t2i).2 = .error e ∨
         ∃ p img, (chain_stage1 π envT device prompt t2i).2 = .ok (p, img) ∧
           (chain_stage2 κ envC p cls).2 = .error e) :
    (chain_thread π κ envT envC device prompt t2i cls).2.2 =
      [Outcome.error ("Chain error: " ++ e)] ∧
    ∀ (q : String) (c : RunRes),
      Outcome.chain q c ∉ (chain_thread π κ envT envC device prompt t2i cls).2.2 := by
  have ht : (chain_thread π κ envT envC device prompt t2i cls).2.2 =
      [Outcome.error ("Chain error: " ++ e)] := by
    rcases h with h | ⟨p, img, h1, h2⟩
    · rcases hs1 : chain_stage1 π envT device prompt t2i with ⟨a, r1⟩
      rw [hs1] at h
      have h' : r1 = .error e := h
      subst h'
      simp [chain_thread, hs1]
    · rcases hs1 : chain_stage1 π envT device prompt t2i with ⟨a, r1⟩
      rw [hs1] at h1
      have h1' : r1 = .ok (p, img) := h1
      subst h1'
      rcases hs2 : chain_stage2 κ envC p cls with ⟨b, r2⟩
      rw [hs2] at h2
      have h2' : r2 = .error e := h2
      subst h2'
      simp [chain_thread, hs1, hs2]
  refine ⟨ht, ?_⟩
  intro q c hc
  rw [ht] at hc
  simp at hc

/-- Witness for C7: stage 1 fails because diffusers is unavailable; the
chain pushes one error outcome and no chain outcome. -/
theorem runChain_failure_witness :
    (chain_thread Nat Nat envTNoDiffusers envCOk "cpu" "a cat" t2iN clsN).2.2 =
      [Outcome.error ("Chain error: " ++
        "diffusers not installed or unavailable. Run: pip install diffusers accelerate safetensors")] :=
  (runChain_failure Nat Nat envTNoDiffusers envCOk "cpu" "a cat" t2iN clsN
    "diffusers not installed or unavailable. Run: pip install diffusers accelerate safetensors"
    (Or.inl rfl)).1

/-! ## Poller properties (C5, C6) -/

/-- Dispatching a `load_ok` outcome returns normally. -/
theorem dispatch_load_ok (m : String) :
    dispatch (Outcome.load_ok m) = .ok [m] := rfl

/-- Dispatching an `error` outcome returns normally. -/
theorem dispatch_error_ok (m : String) :
    dispatch (Outcome.error m) = .ok ["[ERROR] " ++ m] := rfl

/-- Dispatching a `run_result` outcome returns normally: the handler
indexes `res["results"]` correctly for both result shapes. -/
theorem dispatch_run_result_ok (model : String) (res : RunRes) :
    ∃ l, dispatch (Outcome.run_result model res) = .ok l := by
  cases res <;> exact ⟨_, rfl⟩

/-- The chain-result handler raises on every payload the chain task can
push: the loop iterates the keys of the classification run dict, and every
such dict has at least one key. -/
theorem handle_chain_result_raises (p : String) (c : RunRes) :
    ∃ e, handle_chain_result p c = .error e := by
  cases c <;> exact ⟨_, rfl⟩

/-- One poll tick on a single-outcome inbox always dequeues that outcome
and invokes its handler, whether or not the handler raises. -/
theorem poll_singleton (o : Outcome) :
    (poll_results [o]).dispatched = [o] ∧ (poll_results [o]).remaining = [] := by
  cases h : dispatch o <;> simp [poll_results, h]

/-- One poll tick on an inbox all of whose outcomes dispatch normally
drains it completely, dispatching in enqueue order. -/
theorem poll_all_ok (t : List Outcome)
    (h : ∀ o ∈ t, ∃ l, dispatch o = .ok l) :
    (poll_results t).dispatched = t ∧ (poll_results t).remaining = [] := by
  induction t with
  | nil => simp [poll_results]
  | cons o rest ih =>
    obtain ⟨l, hl⟩ := h o (List.mem_cons_self o rest)
    have ihr := ih (fun o' ho' => h o' (List.mem_cons_of_mem o ho'))
    simp [poll_results, hl, ihr.1, ihr.2]

/-- A `_load_model_thread` worker pushes exactly one outcome. -/
theorem load_model_thread_t2i_singleton (π : Type) (env : T2IEnv π)
    (d : String) (s : ModelState π) :
    ∃ o, (load_model_thread_t2i π env d s).2 = [o] := by
  rcases h : t2i_load π env d s with ⟨s1, oe⟩
  cases oe with
  | none =>
    refine ⟨.load_ok "Text-to-Image loaded.", ?_⟩
    simp [load_model_thread_t2i, h]
  | some e =>
    refine ⟨.error ("Error loading Text-to-Image: " ++ e), ?_⟩
    simp [load_model_thread_t2i, h]

/-- A `_load_model_thread` worker for the classification adapter pushes
exactly one outcome. -/
theorem load_model_thread_cls_singleton (π : Type) (env : ClsEnv π)
    (d : String) (s : ModelState π) :
    ∃ o, (load_model_thread_cls π env d s).2 = [o] := by
  rcases h : cls_load π env d s with ⟨s1, oe⟩
  cases oe with
  | none =>
    refine ⟨.load_ok "Image Classification loaded.", ?_⟩
    simp [load_model_thread_cls, h]
  | some e =>
    refine ⟨.error ("Error loading Image Classification: " ++ e), ?_⟩
    simp [load_model_thread_cls, h]

/-- A `_run_model_thread` worker for the text-to-image adapter pushes
exactly one outcome. -/
theorem run_model_thread_t2i_singleton (π : Type) (env : T2IEnv π)
    (d p : String) (s : ModelState π) :
    ∃ o, (run_model_thread_t2i π env d p s).2 = [o] := by
  by_cases hl : s.is_loaded = true
  · rcases hr : t2i_run π env p s with ⟨s2, r⟩
    cases r with
    | error e =>
      refine ⟨.error ("Error running Text-to-Image: " ++ e), ?_⟩
      simp [run_model_thread_t2i, hl, hr]
    | ok res =>
      refine ⟨.run_result "Text-to-Image" res, ?_⟩
      simp [run_model_thread_t2i, hl, hr]
  · simp only [Bool.not_eq_true] at hl
    rcases hload : t2i_load π env d s with ⟨s1, oe⟩
    cases oe with
    | some e =>
      refine ⟨.error ("Error running Text-to-Image: " ++ e), ?_⟩
      simp [run_model_thread_t2i, hl, hload]
    | none =>
      rcases hr : t2i_run π env p s1 with ⟨s2, r⟩
      cases r with
      | error e =>
        refine ⟨.error ("Error running Text-to-Image: " ++ e), ?_⟩
        simp [run_model_thread_t2i, hl, hload, hr]
      | ok res =>
        refine ⟨.run_result "Text-to-Image" res, ?_⟩
        simp [run_model_thread_t2i, hl, hload, hr]

/-- A `_run_model_thread` worker for the classification adapter pushes
exactly one outcome. -/
theorem run_model_thread_cls_singleton (π : Type) (env : ClsEnv π)
    (d i : String) (s : ModelState π) :
    ∃ o, (run_model_thread_cls π env d i s).2 = [o] := by
  by_cases hl : s.is_loaded = true
  · rcases hr : cls_run π env i s with ⟨s2, r⟩
    cases r with
    | error e =>
      refine ⟨.error ("Error running Image Classification: " ++ e), ?_⟩
      simp [run_model_thread_cls, hl, hr]
    | ok res =>
      refine ⟨.run_result "Image Classification" res, ?_⟩
      simp [run_model_thread_cls, hl, hr]
  · simp only [Bool.not_eq_true] at hl
    rcases hload : cls_load π env d s with ⟨s1, oe⟩
    cases oe with
    | some e =>
      refine ⟨.error ("Error running Image Classification: " ++ e), ?_⟩
      simp [run_model_thread_cls, hl, hload]
    | none =>
      rcases hr : cls_run π env i s1 with ⟨s2, r⟩
      cases r with
      | error e =>
        refine ⟨.error ("Error running Image Classification: " ++ e), ?_⟩
        simp [run_model_thread_cls, hl, hload, hr]
      | ok res =>
        refine ⟨.run_result "Image Classification" res, ?_⟩
        simp [run_model_thread_cls, hl, hload, hr]

/-- A chain worker pushes exactly one outcome. -/
theorem chain_thread_singleton (π κ : Type) (envT : T2IEnv π)
    (envC : ClsEnv κ) (d p : String) (t2i : ModelState π)
    (cls : ModelState κ) :
    ∃ o, (chain_thread π κ envT envC d p t2i cls).2.2 = [o] := by
  rcases h1 : chain_stage1 π envT d p t2i with ⟨a, r1⟩
  cases r1 with
  | error e =>
    refine ⟨.error ("Chain error: " ++ e), ?_⟩
    simp [chain_thread, h1]
  | ok pr =>
    obtain ⟨path, img⟩ := pr
    rcases h2 : chain_stage2 κ envC path cls with ⟨b, r2⟩
    cases r2 with
    | error e =>
      refine ⟨.error ("Chain error: " ++ e), ?_⟩
      simp [chain_thread, h1, h2]
    | ok cres =>
      refine ⟨.chain path cres, ?_⟩
      simp [chain_thread, h1, h2]

/-- Every outcome a `_load_all_thread` worker pushes dispatches normally
(`load_ok` and `error` outcomes only). -/
theorem load_all_trace_ok (π κ : Type) (envT : T2IEnv π) (envC : ClsEnv κ)
    (d : String) (t2i : ModelState π) (cls : ModelState κ) :
    ∀ o ∈ (load_all_thread π κ envT envC d t2i cls).2.2,
      ∃ l, dispatch o = .ok l := by
  intro o ho
  rcases h1 : t2i_load π envT d t2i with ⟨a, e1⟩
  rcases h2 : cls_load κ envC d cls with ⟨b, e2⟩
  cases e1 with
  | none =>
    cases e2 with
    | none =>
      simp [load_all_thread, h1, h2] at ho
      rcases ho with rfl | rfl
      · exact ⟨_, rfl⟩
      · exact ⟨_, rfl⟩
    | some e =>
      simp [load_all_thread, h1, h2] at ho
      rcases ho with rfl | rfl
      · exact ⟨_, rfl⟩
      · exact ⟨_, rfl⟩
  | some e =>
    cases e2 with
    | none =>
      simp [load_all_thread, h1, h2] at ho
      rcases ho with rfl | rfl
      · exact ⟨_, rfl⟩
      · exact ⟨_, rfl⟩
    | some e2m =>
      simp [load_all_thread, h1, h2] at ho
      subst ho
      exact ⟨_, rfl⟩

/-- C5: for every inbox pre-loaded with the outcomes pushed, in order, by a
single worker, one invocation of the poll routine dequeues every outcome
(drains the inbox) and invokes each outcome's handler in exactly enqueue
order. -/
theorem poll_drains_single_worker (t : List Outcome)
    (h : SingleWorkerTrace t) :
    (poll_results t).dispatched = t ∧ (poll_results t).remaining = [] := by
  rcases h with ⟨π, env, d, s, rfl⟩ | ⟨π, env, d, s, rfl⟩ |
    ⟨π, κ, envT, envC, d, t2i, cls, rfl⟩ | ⟨π, env, d, p, s, rfl⟩ |
    ⟨π, env, d, i, s, rfl⟩ | ⟨π, κ, envT, envC, d, p, t2i, cls, rfl⟩
  · obtain ⟨o, ho⟩ := load_model_thread_t2i_singleton π env d s
    rw [ho]; exact poll_singleton o
  · obtain ⟨o, ho⟩ := load_model_thread_cls_singleton π env d s
    rw [ho]; exact poll_singleton o
  · exact poll_all_ok _ (load_all_trace_ok π κ envT envC d t2i cls)
  · obtain ⟨o, ho⟩ := run_model_thread_t2i_singleton π env d p s
    rw [ho]; exact poll_singleton o
  · obtain ⟨o, ho⟩ := run_model_thread_cls_singleton π env d i s
    rw [ho]; exact poll_singleton o
  · obtain ⟨o, ho⟩ := chain_thread_singleton π κ envT envC d p t2i cls
    rw [ho]; exact poll_singleton o

/-- Witness for C5: a concrete `loadAll` trace with one success and one
failure is fully drained in order by one tick. -/
theorem poll_drains_single_worker_witness :
    (poll_results
        (load_all_thread Nat Nat envTNoDiffusers envCOk "cpu" t2iN clsN).2.2).dispatched =
      (load_all_thread Nat Nat envTNoDiffusers envCOk "cpu" t2iN clsN).2.2 ∧
    (poll_results
        (load_all_thread Nat Nat envTNoDiffusers envCOk "cpu" t2iN clsN).2.2).remaining = [] :=
  poll_drains_single_worker _
    (Or.inr (Or.inr (Or.inl
      ⟨Nat, Nat, envTNoDiffusers, envCOk, "cpu", t2iN, clsN, rfl⟩)))

/-- C6 evaluated at the failing input: a successful chain pushes a `chain`
outcome, and a poll invocation that dispatches it does not reach the
rescheduling call — the chain handler raises on every chain payload, so the
poller is not rescheduled and stops, contrary to the claim that every
invocation reschedules the next tick. -/
theorem chain_outcome_stops_poller :
    (chain_thread Nat Nat envTOk envCOk "cpu" "a cat" t2iN clsN).2.2 =
      [Outcome.chain "/abs/generated_image.png"
        (RunRes.classifications
          [⟨"tabby cat", 91/100⟩, ⟨"tiger cat", 5/100⟩])] ∧
    (poll_results
        [Outcome.chain "/abs/generated_image.png"
          (RunRes.classifications
            [⟨"tabby cat", 91/100⟩, ⟨"tiger cat", 5/100⟩])]).rescheduled = false ∧
    ∀ (p : String) (c : RunRes), ∃ e, handle_chain_result p c = .error e :=
  ⟨rfl, rfl, handle_chain_result_raises⟩

/-! ## loadAll with one failing adapter (C8) -/

/-- C8: on the two-adapter registry, when exactly one adapter's `load`
raises, `loadAll` pushes one `load_ok` for the succeeding adapter as it
completes, continues past the failure, and then pushes exactly one
aggregate `error` outcome whose message contains the failing adapter's
registry name. -/
theorem load_all_one_failure (π κ : Type) (envT : T2IEnv π) (envC : ClsEnv κ)
    (device : String) (t2i : ModelState π) (cls : ModelState κ) :
    (∀ e, (t2i_load π envT device t2i).2 = some e →
      (cls_load κ envC device cls).2 = none →
      (load_all_thread π κ envT envC device t2i cls).2.2 =
        [Outcome.load_ok "Image Classification loaded.",
         Outcome.error ("Errors while loading: [(\x27Text-to-Image\x27, \x27"
           ++ e ++ "\x27)]")] ∧
      ∃ a b, ("Errors while loading: [(\x27Text-to-Image\x27, \x27"
           ++ e ++ "\x27)]") = a ++ "Text-to-Image" ++ b) ∧
    (∀ e, (t2i_load π envT device t2i).2 = none →
      (cls_load κ envC device cls).2 = some e →
      (load_all_thread π κ envT envC device t2i cls).2.2 =
        [Outcome.load_ok "Text-to-Image loaded.",
         Outcome.error ("Errors while loading: [(\x27Image Classification\x27, \x27"
           ++ e ++ "\x27)]")] ∧
      ∃ a b, ("Errors while loading: [(\x27Image Classification\x27, \x27"
           ++ e ++ "\x27)]") = a ++ "Image Classification" ++ b) := by
  constructor
  · intro e hT hC
    rcases h1 : t2i_load π envT device t2i with ⟨x, o1⟩
    rw [h1] at hT
    have hT' : o1 = some e := hT
    subst hT'
    rcases h2 : cls_load κ envC device cls with ⟨y, o2⟩
    rw [h2] at hC
    have hC' : o2 = none := hC
    subst hC'
    refine ⟨?_, "Errors while loading: [(\x27",
      "\x27, \x27" ++ e ++ "\x27)]", ?_⟩
    · simp [load_all_thread, h1, h2, pyReprPairs, pyReprPair]
      rw [show (", ".intercalate ["(\x27Text-to-Image\x27, \x27" ++ e ++ "\x27)"])
            = "(\x27Text-to-Image\x27, \x27" ++ e ++ "\x27)" from rfl]
      simp only [String.append_assoc]
      rfl
    · simp only [← String.append_assoc]
      rfl
  · intro e hT hC
    rcases h1 : t2i_load π envT device t2i with ⟨x, o1⟩
    rw [h1] at hT
    have hT' : o1 = none := hT
    subst hT'
    rcases h2 : cls_load κ envC device cls with ⟨y, o2⟩
    rw [h2] at hC
    have hC' : o2 = some e := hC
    subst hC'
    refine ⟨?_, "Errors while loading: [(\x27",
      "\x27, \x27" ++ e ++ "\x27)]", ?_⟩
    · simp [load_all_thread, h1, h2, pyReprPairs, pyReprPair]
      rw [show (", ".intercalate ["(\x27Image Classification\x27, \x27" ++ e ++ "\x27)"])
            = "(\x27Image Classification\x27, \x27" ++ e ++ "\x27)" from rfl]
      simp only [String.append_assoc]
      rfl
    · simp only [← String.append_assoc]
      rfl

/-- Witness for C8: diffusers unavailable makes the text-to-image load
fail while the classification load succeeds. -/
theorem load_all_one_failure_witness :
    (load_all_thread Nat Nat envTNoDiffusers envCOk "cpu" t2iN clsN).2.2 =
      [Outcome.load_ok "Image Classification loaded.",
       Outcome.error ("Errors while loading: [(\x27Text-to-Image\x27, \x27"
         ++ "diffusers not installed or unavailable. Run: pip install diffusers accelerate safetensors"
         ++ "\x27)]")] :=
  ((load_all_one_failure Nat Nat envTNoDiffusers envCOk "cpu" t2iN clsN).1
    "diffusers not installed or unavailable. Run: pip install diffusers accelerate safetensors"
    rfl rfl).1

end HIT137
